import Mathlib

/-!
Verification of the SecuringSkies AGCS telemetry core.

Shallow embedding of the parts of the repository the claims are about:

* `securingskies/core/officer.py`  — `GhostCommander.process_traffic`
  (fleet-table merge: drone-list case A, OSD case B, vision case C,
  OwnTracks case D, Dronetag case E) and
  `GhostCommander.generate_sitrep` (error policy).
* `archive/legacy/ai_officer_v47.py` — `estimate_lipo_percent`,
  `extract_drone_data` (battery selection), the `on_message` visual
  `AI_UPDATE` attachment, and the Ollama-timeout branch of
  `generate_sitrep`.
* `securingskies/outputs/auditor.py` — `TelemetryAuditor._detect_hallucination`
  and the hallucination part of `TelemetryAuditor.audit`.
* `securingskies/drivers/autel.py` — `AutelDriver._normalize_uav`
  (derived `acc` / `nav`).
* `securingskies/utils/geo.py` — `calculate_distance`, `calculate_distance_3d`.
* `labs/replay/replay_tool.py` — `replay` (drift-correcting timing loop).

Python floats are modelled as exact rationals (`ℚ`), Python `int` as `ℤ`,
JSON dictionaries of the fleet table as partial maps from a field
enumeration to a value type, and fallible Python operations as `Except`.
-/

/-- A JSON / Python value stored in a fleet-table record.  `pynone` is a
present key whose value is Python `None` (distinct from an absent key,
which is `Option.none` of the surrounding `Option Val`). -/
inductive Val
| num (q : ℚ)
| str (s : String)
| pynone
deriving DecidableEq, Repr

/-- The record keys `GhostCommander.process_traffic` reads or writes.
`ftype` stands for the Python key `"type"` (a Lean keyword); the type is
named `FKey` because Mathlib already declares `Field`. -/
inductive FKey
| tid | ftype | lat | lon | alt | batt | speed | pos_type | acc
| ai_sightings | c2_latency | link_latency | state | vel | tst
deriving DecidableEq, Repr

/-- A fleet-table record: a Python dict, i.e. a partial map from keys to
values (`none` = key absent). -/
abbrev Record : Type := FKey → Option Val

/-- The fleet table `GhostCommander.telemetry_buffer`: tid → record. -/
abbrev Buffer : Type := String → Option Record

/-- One entry of an Autel `drone_list` as read by case A of
`process_traffic` (each field is `none` when the key is absent or its
value is `None`, exactly what Python's `dict.get` collapses to). -/
structure DroneMsg where
  latitude : Option ℚ
  longitude : Option ℚ
  height : Option ℚ
  battery_capacity : Option ℚ
  horizontal_speed : Option ℚ
  pos_type : Option String
  is_fixed : Option ℚ
deriving DecidableEq

/-- officer.py:149-150 —
`final_lat = new_lat if (new_lat and abs(new_lat) > 1) else current_record.get("lat", 0.0)`
(`new_lat and …` is Python truthiness: `None` and `0.0` are falsy). -/
def sentinelMerge (newv : Option ℚ) (cur : Option Val) : Val :=
  match newv with
  | some q => if q ≠ 0 ∧ 1 < |q| then .num q else cur.getD (.num 0)
  | none => cur.getD (.num 0)

/-- officer.py:144-162, case A (`"drone_list" in data`): the effect of one
iteration of the drone loop on the `AUTEL_UAV` record, i.e.
`self.telemetry_buffer[uav_tid].update({...})` — keys of the literal dict
overwrite, all other keys of the current record are preserved. -/
def mergeDroneA (cur : Record) (d : DroneMsg) : Record := fun f =>
  match f with
  | .tid => some (.str "AUTEL_UAV")
  | .ftype => some (.str "UAV (Autel)")
  | .lat => some (sentinelMerge d.latitude (cur .lat))
  | .lon => some (sentinelMerge d.longitude (cur .lon))
  | .alt => some (.num (d.height.getD 0))
  | .batt => some (.num (d.battery_capacity.getD 0))
  | .speed => some (.num (d.horizontal_speed.getD 0))
  | .pos_type => some (.str (d.pos_type.getD "0"))
  | .acc => some (.num (if d.is_fixed = some 2 then 0.1 else 5.0))
  | f' => cur f'

/-- officer.py:164-171, case B (Autel OSD direct telemetry): field-by-field
conditional update of the `AUTEL_UAV` record. -/
def mergeCaseB (cur : Record) (pt : Option String) (cp : Option ℚ)
    (h : Option ℚ) : Record := fun f =>
  match f with
  | .ftype => some (.str "UAV (Autel)")
  | .pos_type => match pt with | some s => some (.str s) | none => cur .pos_type
  | .batt => match cp with | some q => some (.num q) | none => cur .batt
  | .alt => match h with | some q => some (.num q) | none => cur .alt
  | f' => cur f'

/-- officer.py:183-193, case D (OwnTracks): the payload dict `data` gets
`speed`, `type` (and possibly `link_latency`) written into it and then
**replaces** the stored record: `self.telemetry_buffer[tid] = data`.
The result reads only the update `u`, never the prior record.
(The source stores the latency as a formatted string `"<x>s"`; the exact
rendering is immaterial here, so the numeric value is kept.) -/
def mergeCaseD (serverTs : ℚ) (u : Record) : Record := fun f =>
  match f with
  | .speed => some (.num ((match u .vel with | some (.num q) => q | _ => 0) / (3.6 : ℚ)))
  | .ftype => some (.str "Ground Station (GCS)")
  | .link_latency =>
      match u .tst with
      | some (.num t) => some (.num (serverTs - t))
      | _ => u .link_latency
  | f' => u f'

/-- officer.py:195-226, case E (Dronetag): a fresh dict with a fixed key
set **replaces** the stored record (`self.telemetry_buffer[tid] = {...}`);
every key outside that set is absent afterwards.  (`link_latency` is the
string `"N/A"` when no device timestamp parses; otherwise the source
stores the formatted latency, kept numerically here.) -/
def mergeCaseE (serverTs : ℚ) (tid : String) (loc_lat loc_lon : Option ℚ)
    (loc_acc : Option ℚ) (alt : ℚ) (speed : ℚ) (opstate : String)
    (device_ts : Option ℚ) : Record := fun f =>
  match f with
  | .tid => some (.str tid)
  | .ftype => some (.str "UAV (Dronetag)")
  | .lat => some (match loc_lat with | some q => .num q | none => .pynone)
  | .lon => some (match loc_lon with | some q => .num q | none => .pynone)
  | .acc => some (.num (loc_acc.getD 10))
  | .alt => some (.num alt)
  | .speed => some (.num speed)
  | .state => some (.str opstate)
  | .batt => some (.str "N/A")
  | .link_latency =>
      some (match device_ts with
            | some t => .num (serverTs - t)
            | none => .str "N/A")
  | _ => none

/-- Storing a case-D (OwnTracks) update into the fleet table:
`self.telemetry_buffer[tid] = data`. -/
def storeCaseD (buf : Buffer) (tid : String) (serverTs : ℚ) (u : Record) :
    Buffer := fun k => if k = tid then some (mergeCaseD serverTs u) else buf k

/-- Project a field of the record stored under a key (for stating concrete
facts about a `Buffer` without comparing whole functions). -/
def bufField (b : Buffer) (k : String) (f : FKey) : Option (Option Val) :=
  (b k).map (fun r => r f)

/-! ### Legacy dispatcher (`ai_officer_v47.py`, `on_message`) -/

/-- One normalized record of the legacy `telemetry_buffer` history
(`ai_officer_v47.py`): the fields the visual-attachment path touches. -/
structure LRec where
  ftype : String
  ai_sightings : List (String × ℕ)
  ts : ℚ
deriving DecidableEq, Repr

/-- ai_officer_v47.py:720-721 — the per-tid effect of an `AI_UPDATE`:
`if t['history'] and t['history'][-1]['type'] == 'AIR':
t['history'][-1]['ai_sightings'] = r['sightings']`. -/
def setLastSight (h : List LRec) (s : List (String × ℕ)) : List LRec :=
  match h.getLast? with
  | some r => if r.ftype = "AIR" then h.dropLast ++ [{ r with ai_sightings := s }] else h
  | none => h

/-- ai_officer_v47.py:719-721 — an `AI_UPDATE` iterates over **every**
buffer entry and rewrites the latest history record of each entry whose
latest record has type `AIR`.  The buffer is an insertion-ordered dict,
modelled as an association list. -/
def attach_ai_update (buf : List (String × List LRec))
    (s : List (String × ℕ)) : List (String × List LRec) :=
  buf.map (fun p => (p.1, setLastSight p.2 s))

/-! ### Auditor (`securingskies/outputs/auditor.py`) -/

/-- auditor.py:64-71 — the positive-assertion trigger list (note the
leading space of `" sighting"` in the source). -/
def positive_triggers : List String :=
  ["visual contact", "contact confirmed", "human detected",
   "vehicle detected", "positive id", " sighting"]

/-- Python `str.lower()` restricted to ASCII (all triggers are ASCII). -/
def strLower (s : String) : String := String.mk (s.toList.map Char.toLower)

/-- Python `s.replace('*', '')`: remove every asterisk. -/
def stripStars (s : String) : String :=
  String.mk (s.toList.filter (fun c => c ≠ '*'))

/-- Python `s.strip()`: drop whitespace from both ends. -/
def pyStrip (s : String) : String :=
  String.mk (((s.toList.dropWhile Char.isWhitespace).reverse.dropWhile
    Char.isWhitespace).reverse)

/-- Helper: `n` is a contiguous infix of the character list. -/
def listInfix (n : List Char) : List Char → Bool
  | [] => n.isEmpty
  | c :: rest => n.isPrefixOf (c :: rest) || listInfix n rest

/-- Python `needle in hay` on strings: substring containment. -/
def containsSub (needle hay : String) : Bool :=
  listInfix needle.toList hay.toList

/-- auditor.py:47-79 — `TelemetryAuditor._detect_hallucination`. -/
def detect_hallucination (text : String) (telemetry_has_visuals : Bool) : ℕ :=
  let t := strLower text
  if telemetry_has_visuals then 0
  else if positive_triggers.any (fun p => containsSub p t) then 1 else 0

/-- auditor.py:109-116 — the hallucination column of
`TelemetryAuditor.audit`: strip `*`, trim, check the context lines for the
literal `"VISUAL"`, then run the detector. -/
def audit_hallucination (raw_prompts : List String) (llm_response : String) : ℕ :=
  let clean := pyStrip (stripStars llm_response)
  detect_hallucination clean (raw_prompts.any (fun p => containsSub "VISUAL" p))

/-! ### Battery estimation (`ai_officer_v47.py`) -/

/-- Python `int()` on a rational: truncation toward zero. -/
def pytrunc (q : ℚ) : ℤ := if q < 0 then -(Int.floor (-q)) else Int.floor q

/-- ai_officer_v47.py:280 — `cells = 4 if mv > 14000 else 3`. -/
def lipo_cells (mv : ℤ) : ℤ := if mv > 14000 then 4 else 3

/-- ai_officer_v47.py:281 — `v_cell = (mv / 1000.0) / cells`. -/
def lipo_vcell (mv : ℤ) : ℚ := ((mv : ℚ) / 1000) / ((lipo_cells mv : ℤ) : ℚ)

/-- ai_officer_v47.py:278-284 — `estimate_lipo_percent`. -/
def estimate_lipo_percent (mv : ℤ) : ℤ :=
  if mv = 0 then 0
  else
    if lipo_vcell mv ≥ (4.3 : ℚ) then 100
    else if lipo_vcell mv ≤ (3.5 : ℚ) then 0
    else pytrunc ((lipo_vcell mv - (3.5 : ℚ)) / (0.8 : ℚ) * 100)

/-- ai_officer_v47.py:296-299 — the battery selection of
`extract_drone_data`:
`pct = batt.get('capacity_percent', source.get('capacity_percent', 0))`,
`mv = batt.get('voltage', 0)`,
`if pct == 0 and mv > 0: pct = estimate_lipo_percent(mv)`. -/
def extract_batt (battery_capacity source_capacity voltage_mv : Option ℤ) : ℤ :=
  let pct := battery_capacity.getD (source_capacity.getD 0)
  let mv := voltage_mv.getD 0
  if pct = 0 ∧ mv > 0 then estimate_lipo_percent mv else pct

/-- The battery-derivation formula in the words of claim C5 / spec §4.2:
3 cells when `mv ≤ 14 000` else 4, per-cell voltage clamped to
[3.5 V, 4.3 V] (0 at or below 3.5, 100 at or above 4.3), otherwise the
integer part of `(v_cell − 3.5) / 0.8 · 100`. -/
def claimed_battery_percent (mv : ℤ) : ℤ :=
  let cells : ℤ := if mv ≤ 14000 then 3 else 4
  let v_cell : ℚ := ((mv : ℚ) / 1000) / ((cells : ℤ) : ℚ)
  if v_cell ≤ (3.5 : ℚ) then 0
  else if v_cell ≥ (4.3 : ℚ) then 100
  else pytrunc ((v_cell - (3.5 : ℚ)) / (0.8 : ℚ) * 100)

/-! ### Autel driver (`securingskies/drivers/autel.py`) -/

/-- Python `s[-4:]`. -/
def lastFour (s : String) : String :=
  String.mk (s.toList.drop (s.toList.length - 4))

/-- The raw drone dict read by `AutelDriver._normalize_uav` (each field
`none` when the key is absent, mirroring `dict.get` defaults). -/
structure AutelRaw where
  sn : Option String
  latitude : Option ℚ
  longitude : Option ℚ
  height : Option ℚ
  battery_capacity : Option ℤ
  raw_capacity : Option ℤ
  rtk_used : Option ℤ
  is_fixed : Option ℤ
  gps_number : Option ℤ
  horizontal_speed : Option ℚ
  attitude_head : Option ℚ
deriving DecidableEq

/-- The normalized tactical object produced by `AutelDriver._normalize_uav`
(the fields relevant here). -/
structure NormalizedUAV where
  tid : String
  lat : Option ℚ
  lon : Option ℚ
  alt : ℚ
  batt : ℤ
  nav : String
  acc : ℚ
  sats : ℤ
  speed : ℚ
  heading : ℚ
deriving DecidableEq

/-- autel.py:84-129 — `AutelDriver._normalize_uav`: battery from
`capacity_percent`, RTK/GPS logic (`acc = 0.1` when `rtk_used == 1`, else
`3.0` when `gps_number > 12`, else the default `10.0`), speed m/s → km/h. -/
def normalize_uav (raw : AutelRaw) : NormalizedUAV :=
  let pct := raw.battery_capacity.getD (raw.raw_capacity.getD 0)
  let rtk_used := raw.rtk_used.getD 0
  let is_fixed := raw.is_fixed.getD 0
  let sats := raw.gps_number.getD 0
  let navAcc : String × ℚ :=
    if rtk_used = 1 then
      (if is_fixed = 3 then "RTK-FIX" else if is_fixed = 2 then "RTK-FLOAT" else "RTK",
       (0.1 : ℚ))
    else if sats > 12 then ("GPS-3D", (3.0 : ℚ))
    else ("GPS", (10.0 : ℚ))
  { tid := "UAV-" ++ lastFour (raw.sn.getD "UNK")
    lat := raw.latitude
    lon := raw.longitude
    alt := raw.height.getD 0
    batt := pct
    nav := navAcc.1
    acc := navAcc.2
    sats := sats
    speed := raw.horizontal_speed.getD 0 * (3.6 : ℚ)
    heading := raw.attitude_head.getD 0 }

/-- The derived-accuracy rule as amended: 0.1 for RTK, 3.0 above **12**
satellites (not 10), else 10.0 — the rule `AutelDriver._normalize_uav`
actually implements. -/
def claimed_accuracy_amended (rtk_used sats : ℤ) : ℚ :=
  if rtk_used = 1 then (0.1 : ℚ) else if sats > 12 then (3.0 : ℚ) else (10.0 : ℚ)

/-! ### SITREP error policy (`officer.py:234-261`, legacy `generate_sitrep`) -/

/-- Outcome of the `litellm.completion` call inside
`GhostCommander.generate_sitrep`: either a response text or a raised
exception with its message. -/
inductive LLMResult
| ok (text : String)
| err (detail : String)
deriving DecidableEq

/-- officer.py:243-261 — `GhostCommander.generate_sitrep` as a function of
the fleet table and the LLM outcome: the table is only read, and the
`except` branch returns the error string with the exception detail
appended (`f"SITREP: SYSTEM ERROR. AI UNAVAILABLE. ({e})"`). -/
def officer_generate_sitrep (buffer : Buffer) (llm : LLMResult) :
    Buffer × String :=
  match llm with
  | .ok t => (buffer, pyStrip t)
  | .err e => (buffer, "SITREP: SYSTEM ERROR. AI UNAVAILABLE. (" ++ e ++ ")")

/-- Outcome of the Ollama HTTP call in the legacy `generate_sitrep`
(ai_officer_v47.py:553-560): a response, a `ReadTimeout`, or another
exception. -/
inductive LegacyLLMResult
| ok (text : String)
| timeout
| err (detail : String)
deriving DecidableEq

/-- ai_officer_v47.py:554-569 — the legacy error policy: on `ReadTimeout`
print one warning and return without output; on other exceptions print an
`AI Error` line and return without output.  The result is
(report text if any, console lines printed by the error paths). -/
def legacy_generate_sitrep (llm : LegacyLLMResult) :
    Option String × List String :=
  match llm with
  | .ok t => (some t, [])
  | .timeout => (none, ["⚠️ AI Model Loading... (Timeout). The next request will be faster."])
  | .err e => (none, ["AI Error: " ++ e])

/-! ### Geo utilities (`securingskies/utils/geo.py`) -/

/-- A Python value passed positionally to the geo functions. -/
inductive PyVal
| none
| num (q : ℚ)
| str (s : String)
deriving DecidableEq, Repr

/-- The Python exception kind the geo model can raise. -/
inductive PyErr
| typeError
deriving DecidableEq, Repr

/-- What `calculate_distance_3d` returns when it returns normally: the
early `return 0.0`, or the haversine/3-D value — kept symbolically as the
numeric inputs the formula receives, because the transcendental kernel
(`sin`, `cos`, `atan2`, `sqrt`) has no computable embedding and raises no
exception on numeric inputs (its `sqrt` arguments are provably
non-negative). -/
inductive GeoResult
| zero
| hav (lat1 lon1 lat2 lon2 altDiff : ℚ)
deriving DecidableEq, Repr

/-- Coercion a numeric builtin such as `math.radians` applies to its
argument: any non-number raises `TypeError`. -/
def asNum : PyVal → Except PyErr ℚ
  | .num q => .ok q
  | _ => .error .typeError

/-- geo.py:33 — `(alt or 0)` followed by use in subtraction: `None` and
falsy values give 0, a non-empty string later raises `TypeError` in the
subtraction. -/
def pyOrZero : PyVal → Except PyErr ℚ
  | .none => .ok 0
  | .num q => .ok q
  | .str s => if s = "" then .ok 0 else .error .typeError

/-- geo.py:14-35 — `calculate_distance_3d`, step for step: the null-lat
early return, then `math.radians` on both latitudes, then
`math.radians(lon2 - lon1)` (which touches both longitudes), then the
altitude defaulting; the trig/sqrt kernel itself raises nothing and its
output is kept symbolic. -/
def calculate_distance_3d (lat1 lon1 alt1 lat2 lon2 alt2 : PyVal) :
    Except PyErr GeoResult :=
  if lat1 = .none ∨ lat2 = .none then .ok .zero
  else do
    let l1 ← asNum lat1
    let l2 ← asNum lat2
    let o1 ← asNum lon1
    let o2 ← asNum lon2
    let a1 ← pyOrZero alt1
    let a2 ← pyOrZero alt2
    .ok (.hav l1 o1 l2 o2 (a2 - a1))

/-- geo.py:10-12 — `calculate_distance` delegates to the 3-D version with
literal altitudes 0. -/
def calculate_distance (lat1 lon1 lat2 lon2 : PyVal) : Except PyErr GeoResult :=
  calculate_distance_3d lat1 lon1 (.num 0) lat2 lon2 (.num 0)

/-! ### Replay engine (`labs/replay/replay_tool.py`) -/

/-- One well-formed line of a forensic log as read by `replay`. -/
structure LogRecord where
  ts : ℚ
  topic : String
  data : String
deriving DecidableEq, Repr

/-- One published packet together with the sleep performed before it. -/
structure Emit where
  sleep_s : ℚ
  topic : String
  data : String
deriving DecidableEq, Repr

/-- replay_tool.py:109-110 — `if start_skip_ts and ts < start_skip_ts:
continue` (Python truthiness: a skip threshold of `0.0` is falsy). -/
def skipCheck (skip : Option ℚ) (ts : ℚ) : Bool :=
  match skip with
  | none => false
  | some s => s ≠ 0 && ts < s

/-- replay_tool.py:109-143 — one iteration of the replay loop on a decoded
record: skip before the jump threshold; otherwise anchor the timeline on
the first record (`first_record_ts = ts; wall_clock_start = now`), compute
`wait = ((ts - first_record_ts) - (now - wall_clock_start) * speed) / speed`
and sleep it when positive, then publish. -/
def replayStep (speed : ℚ) (skip : Option ℚ) (now : ℚ)
    (anchor : Option (ℚ × ℚ)) (r : LogRecord) :
    Option (ℚ × ℚ) × Option Emit :=
  if skipCheck skip r.ts then (anchor, none)
  else
    let a := anchor.getD (r.ts, now)
    let time_passed_log := r.ts - a.1
    let time_passed_real := (now - a.2) * speed
    let wait := (time_passed_log - time_passed_real) / speed
    (some a,
     some { sleep_s := if wait > 0 then wait else 0
            topic := r.topic
            data := r.data })

/-- replay_tool.py:100-151 — the whole loop over the file: each line is a
wall-clock instant paired with its decoded record (`none` = malformed line,
skipped by the `except (json.JSONDecodeError, ValueError)` handler).
Returns the published packets in order. -/
def replayRun (speed : ℚ) (skip : Option ℚ) :
    Option (ℚ × ℚ) → List (ℚ × Option LogRecord) → List Emit
  | _, [] => []
  | anchor, (_, none) :: rest => replayRun speed skip anchor rest
  | anchor, (now, some r) :: rest =>
    match replayStep speed skip now anchor r with
    | (a2, some em) => em :: replayRun speed skip a2 rest
    | (a2, none) => replayRun speed skip a2 rest

/-! ### Concrete instances used in counterexamples and witnesses -/

/-- Pre-state `AUTEL_UAV` record holding a valid fix at (60, 24). -/
def preFix : Record := fun f =>
  match f with
  | .lat => some (.num 60)
  | .lon => some (.num 24)
  | _ => none

/-- A `drone_list` entry carrying the sentinel latitude 0.5 together with a
valid longitude 100. -/
def droneSentinelLat : DroneMsg :=
  { latitude := some (1/2), longitude := some 100, height := none,
    battery_capacity := none, horizontal_speed := none, pos_type := none,
    is_fixed := none }

/-- Pre-state OwnTracks record for tid "RW" that carries an altitude. -/
def preOwn : Record := fun f =>
  match f with
  | .tid => some (.str "RW")
  | .lat => some (.num 60)
  | .lon => some (.num 24)
  | .alt => some (.num 100)
  | _ => none

/-- A later OwnTracks payload for the same tid without the `alt` key. -/
def ownNoAlt : Record := fun f =>
  match f with
  | .tid => some (.str "RW")
  | .lat => some (.num (601/10))
  | .lon => some (.num (241/10))
  | _ => none

/-- Fleet table holding `preOwn` under "RW". -/
def bufOwn : Buffer := fun k => if k = "RW" then some preOwn else none

/-- Legacy buffer with two AIR assets; the Dronetag one is fresher. -/
def legacyTwoAir : List (String × List LRec) :=
  [("UAV-0001", [{ ftype := "AIR", ai_sightings := [], ts := 10 }]),
   ("TAG-9999", [{ ftype := "AIR", ai_sightings := [], ts := 20 }])]

/-- The sightings of a visual event: two humans. -/
def humanSightings : List (String × ℕ) := [("Human", 2)]

/-- An Autel OSD report with a GPS-only fix and 11 satellites. -/
def rawElevenSats : AutelRaw :=
  { sn := some "AAAA1234", latitude := some 60, longitude := some 24,
    height := some 50, battery_capacity := some 80, raw_capacity := none,
    rtk_used := some 0, is_fixed := some 0, gps_number := some 11,
    horizontal_speed := some 5, attitude_head := some 90 }

/-- A controller heartbeat entry carrying the 0/0 position. -/
def droneHeartbeat : DroneMsg :=
  { latitude := some 0, longitude := some 0, height := none,
    battery_capacity := none, horizontal_speed := none, pos_type := none,
    is_fixed := none }

/-- Legacy buffer containing only a ground asset. -/
def legacyGroundOnly : List (String × List LRec) :=
  [("RW", [{ ftype := "GROUND", ai_sightings := [], ts := 5 }])]

/-- The empty fleet table. -/
def emptyBuf : Buffer := fun _ => none

/-! ## Theorems -/

/-- Helper: `estimate_lipo_percent` agrees everywhere with the formula
stated by the spec (3 cells iff `mv ≤ 14 000`, clamp to [3.5 V, 4.3 V],
linear in between); the two differ only in branch order. -/
theorem estimate_lipo_eq_claimed (mv : ℤ) :
    estimate_lipo_percent mv = claimed_battery_percent mv := by
  simp only [estimate_lipo_percent, claimed_battery_percent, lipo_vcell, lipo_cells]
  by_cases hm : mv ≤ 14000
  · rw [if_pos hm, if_neg (show ¬ mv > 14000 by omega)]
    set v : ℚ := (mv:ℚ) / 1000 / (((3:ℤ) : ℤ) : ℚ) with hv
    by_cases h0 : mv = 0
    · subst h0
      have hv0 : v = 0 := by rw [hv]; norm_num
      rw [if_pos rfl, hv0]
      norm_num
    · rw [if_neg h0]
      by_cases h1 : v ≤ (3.5 : ℚ)
      · rw [if_pos h1, if_neg (show ¬ v ≥ (4.3:ℚ) by intro hge; linarith), if_pos h1]
      · rw [if_neg h1]
        by_cases h2 : v ≥ (4.3 : ℚ)
        · rw [if_pos h2, if_neg h1]
        · rw [if_neg h2, if_neg h1]
  · rw [if_neg hm, if_pos (show mv > 14000 by omega)]
    set v : ℚ := (mv:ℚ) / 1000 / (((4:ℤ) : ℤ) : ℚ) with hv
    have h0 : ¬ mv = 0 := by omega
    rw [if_neg h0]
    by_cases h1 : v ≤ (3.5 : ℚ)
    · rw [if_pos h1, if_neg (show ¬ v ≥ (4.3:ℚ) by intro hge; linarith), if_pos h1]
    · rw [if_neg h1]
      by_cases h2 : v ≥ (4.3 : ℚ)
      · rw [if_pos h2, if_neg h1]
      · rw [if_neg h2, if_neg h1]

/-- C5: for an enterprise-UAV drone record whose selected
`capacity_percent` is zero (absent keys default to 0, so this is the
code's "no positive capacity" guard) and whose battery pack reports
`mv > 0` millivolts, `extract_drone_data` derives the battery percent
exactly as the claim states: 3 cells when `mv ≤ 14 000` else 4, per-cell
voltage clamped to [3.5 V, 4.3 V] (0 at or below 3.5 V, 100 at or above
4.3 V), otherwise the integer part of `(v_cell − 3.5) / 0.8 · 100`. -/
theorem c5_battery_from_voltage (bc sc v : Option ℤ) (mv : ℤ)
    (hpct : bc.getD (sc.getD 0) = 0) (hv : v = some mv) (hmv : 0 < mv) :
    extract_batt bc sc v = claimed_battery_percent mv := by
  subst hv
  simp only [extract_batt, Option.getD_some, hpct]
  rw [if_pos ⟨trivial, hmv⟩]
  exact estimate_lipo_eq_claimed mv

/-- Witness for C5 at a concrete input: a 15 200 mV pack (4S, 3.8 V/cell)
with no reported capacity. -/
theorem c5_witness :
    extract_batt (some 0) none (some 15200) = claimed_battery_percent 15200 :=
  c5_battery_from_voltage (some 0) none (some 15200) 15200 rfl rfl (by norm_num)

/-- C10: for every integer millivolt input, `estimate_lipo_percent`
returns a value in [0, 100]; it is 0 when `mv = 0` or the per-cell
voltage is at most 3.5 V, and 100 when the per-cell voltage is at least
4.3 V. -/
theorem c10_battery_percent_range (mv : ℤ) :
    (0 ≤ estimate_lipo_percent mv ∧ estimate_lipo_percent mv ≤ 100) ∧
    (mv = 0 → estimate_lipo_percent mv = 0) ∧
    (lipo_vcell mv ≤ (3.5:ℚ) → estimate_lipo_percent mv = 0) ∧
    ((4.3:ℚ) ≤ lipo_vcell mv → estimate_lipo_percent mv = 100) := by
  have hmid : ∀ v : ℚ, (3.5:ℚ) < v → v < (4.3:ℚ) →
      0 ≤ pytrunc ((v - (3.5 : ℚ)) / (0.8 : ℚ) * 100) ∧
      pytrunc ((v - (3.5 : ℚ)) / (0.8 : ℚ) * 100) ≤ 100 := by
    intro v hlo hhi
    have heq : (v - (3.5 : ℚ)) / (0.8 : ℚ) * 100 = (v - (3.5:ℚ)) * 125 := by ring
    have hq0 : (0:ℚ) ≤ (v - (3.5 : ℚ)) / (0.8 : ℚ) * 100 := by rw [heq]; nlinarith
    have hq100 : (v - (3.5 : ℚ)) / (0.8 : ℚ) * 100 < 100 := by rw [heq]; nlinarith
    rw [pytrunc, if_neg (not_lt.mpr hq0)]
    refine ⟨Int.floor_nonneg.mpr hq0, ?_⟩
    have hfl : Int.floor ((v - (3.5 : ℚ)) / (0.8 : ℚ) * 100) < (100:ℤ) :=
      Int.floor_lt.mpr (by exact_mod_cast hq100)
    omega
  unfold estimate_lipo_percent
  by_cases h0 : mv = 0
  · subst h0
    refine ⟨⟨by norm_num, by norm_num⟩, fun _ => by norm_num, fun _ => by norm_num, fun h => ?_⟩
    exfalso
    have hz : lipo_vcell 0 = 0 := by norm_num [lipo_vcell, lipo_cells]
    rw [hz] at h
    norm_num at h
  · rw [if_neg h0]
    by_cases h2 : lipo_vcell mv ≥ (4.3 : ℚ)
    · rw [if_pos h2]
      exact ⟨⟨by norm_num, by norm_num⟩, fun h => absurd h h0, fun h1 => by linarith, fun _ => rfl⟩
    · rw [if_neg h2]
      by_cases h1 : lipo_vcell mv ≤ (3.5 : ℚ)
      · rw [if_pos h1]
        exact ⟨⟨le_refl 0, by norm_num⟩, fun h => absurd h h0, fun _ => rfl, fun h => absurd h h2⟩
      · rw [if_neg h1]
        have hm := hmid (lipo_vcell mv) (by linarith) (by linarith)
        exact ⟨hm, fun h => absurd h h0, fun h => absurd h h1, fun h => absurd h h2⟩

/-- Witness for C10 at `mv = 10000` (3S, 3.33 V/cell, below the clamp). -/
theorem c10_witness :
    (0 ≤ estimate_lipo_percent 10000 ∧ estimate_lipo_percent 10000 ≤ 100) ∧
    estimate_lipo_percent 10000 = 0 :=
  ⟨(c10_battery_percent_range 10000).1,
   (c10_battery_percent_range 10000).2.2.1 (by norm_num [lipo_vcell, lipo_cells])⟩

/-- C4 (code bug): on a visuals-free context, the auditor scores the pure
negation "No visual contact." as a hallucination (1), although the spec —
and the function's own docstring ("Saying 'No visual contact' is NOT a
hallucination") — require 0: the substring test fires on
`"visual contact"` inside the negation. -/
theorem c4_negation_scored_as_hallucination :
    audit_hallucination ["UAV-1234 | Type: AIR | BATT: 59%"] "No visual contact." = 1 ∧
    detect_hallucination "No visual contact." false = 1 := by
  constructor <;> decide

/-- C6 counterexample: a GPS fix with 11 satellites (which "exceeds 10")
and no RTK is normalized with `acc = 10.0`, not the claimed `3.0` — the
driver's threshold is `sats > 12`. -/
theorem c6_counterexample :
    rawElevenSats.rtk_used = some 0 ∧ rawElevenSats.gps_number = some 11 ∧
    (normalize_uav rawElevenSats).acc = 10 ∧ (normalize_uav rawElevenSats).acc ≠ 3 := by
  refine ⟨rfl, rfl, ?_, ?_⟩ <;> norm_num [normalize_uav, rawElevenSats]

/-- C6 as amended: `AutelDriver._normalize_uav` always derives
`accuracy_m` (it never reads a reported accuracy) as 0.1 when
`rtk_used == 1`, else 3.0 when the GPS satellite count exceeds **12**,
else 10.0. -/
theorem c6_accuracy_rule (raw : AutelRaw) :
    (normalize_uav raw).acc =
      claimed_accuracy_amended (raw.rtk_used.getD 0) (raw.gps_number.getD 0) := by
  simp only [normalize_uav, claimed_accuracy_amended]
  split_ifs <;> rfl

/-- C7 counterexample: a failing LLM call does not return exactly the
fixed string `"SITREP: SYSTEM ERROR. AI UNAVAILABLE."` — the exception
detail is appended in parentheses. -/
theorem c7_counterexample :
    (officer_generate_sitrep emptyBuf (.err "Connection refused")).2 ≠
      "SITREP: SYSTEM ERROR. AI UNAVAILABLE." ∧
    (officer_generate_sitrep emptyBuf (.err "Connection refused")).2 =
      "SITREP: SYSTEM ERROR. AI UNAVAILABLE. (Connection refused)" := by
  constructor <;> decide

/-- C7 as amended: the core engine answers **any** LLM failure (timeouts
included — `litellm` timeouts are ordinary exceptions to its handler) with
the fixed prefix `"SITREP: SYSTEM ERROR. AI UNAVAILABLE."` followed by the
error detail in parentheses, and leaves the fleet table untouched; the
legacy engine is the one that special-cases an Ollama `ReadTimeout` by
logging a single warning and producing no report text. -/
theorem c7_error_policy (b : Buffer) (e : String) :
    officer_generate_sitrep b (.err e) =
      (b, "SITREP: SYSTEM ERROR. AI UNAVAILABLE. (" ++ e ++ ")") ∧
    legacy_generate_sitrep .timeout =
      (none, ["⚠️ AI Model Loading... (Timeout). The next request will be faster."]) := by
  exact ⟨rfl, rfl⟩

/-- C8 counterexample: a null longitude with both latitudes numeric makes
`calculate_distance_3d` raise a `TypeError` (at `math.radians(lon2 - lon1)`)
instead of returning 0 — so "never raises, returns 0 on malformed input"
fails on the code. -/
theorem c8_counterexample :
    calculate_distance_3d (.num 60) .none (.num 0) (.num 61) (.num 24) (.num 0) =
      .error .typeError ∧
    calculate_distance_3d (.num 60) .none (.num 0) (.num 61) (.num 24) (.num 0) ≠
      .ok .zero := by
  exact ⟨rfl, fun h => Except.noConfusion h⟩

/-- C8 as amended: both distance operations return 0 whenever either
latitude is null, and a null altitude is defaulted to 0 without raising;
but when both latitudes are numeric, a null longitude raises a type error
instead of returning 0. -/
theorem c8_geo_totality :
    (∀ lat1 lon1 alt1 lat2 lon2 alt2 : PyVal,
        lat1 = .none ∨ lat2 = .none →
        calculate_distance_3d lat1 lon1 alt1 lat2 lon2 alt2 = .ok .zero) ∧
    (∀ lat1 lon1 lat2 lon2 : PyVal,
        lat1 = .none ∨ lat2 = .none →
        calculate_distance lat1 lon1 lat2 lon2 = .ok .zero) ∧
    (∀ la1 lo1 la2 lo2 : ℚ,
        calculate_distance_3d (.num la1) (.num lo1) .none (.num la2) (.num lo2) .none =
          calculate_distance_3d (.num la1) (.num lo1) (.num 0) (.num la2) (.num lo2) (.num 0)) ∧
    (∀ (la1 la2 : ℚ) (alt1 alt2 : PyVal),
        calculate_distance_3d (.num la1) .none alt1 (.num la2) (.num 24) alt2 =
          .error .typeError) := by
  refine ⟨?_, ?_, ?_, ?_⟩
  · intro lat1 lon1 alt1 lat2 lon2 alt2 h
    rcases h with h | h <;> subst h <;> simp [calculate_distance_3d]
  · intro lat1 lon1 lat2 lon2 h
    rcases h with h | h <;> subst h <;> simp [calculate_distance, calculate_distance_3d]
  · intro la1 lo1 la2 lo2
    rfl
  · intro la1 la2 alt1 alt2
    rfl

/-- Witness for C8 at a concrete null-latitude input. -/
theorem c8_witness :
    calculate_distance_3d .none (.num 24) (.num 0) (.num 61) (.num 24) (.num 0) =
      .ok .zero :=
  c8_geo_totality.1 .none (.num 24) (.num 0) (.num 61) (.num 24) (.num 0) (Or.inl rfl)

/-- C1 counterexample: the dispatcher filters latitude and longitude
independently — an update whose latitude is the sentinel 0.5° but whose
longitude is 100° keeps the stored latitude yet **overwrites** the stored
longitude, so "post-state lat and lon equal pre-state lat and lon" fails. -/
theorem c1_counterexample :
    (1:ℚ) ≤ |(60:ℚ)| ∧ |(1/2:ℚ)| < 1 ∧
    preFix .lat = some (.num 60) ∧ preFix .lon = some (.num 24) ∧
    droneSentinelLat.latitude = some (1/2) ∧
    droneSentinelLat.longitude = some 100 ∧
    (mergeDroneA preFix droneSentinelLat) .lat = some (.num 60) ∧
    (mergeDroneA preFix droneSentinelLat) .lon = some (.num 100) ∧
    (mergeDroneA preFix droneSentinelLat) .lon ≠ preFix .lon := by
  have habs1 : ¬ ((1/2:ℚ) ≠ 0 ∧ 1 < |(1/2:ℚ)|) := by
    rintro ⟨-, h⟩
    rw [abs_of_nonneg (by norm_num : (0:ℚ) ≤ 1/2)] at h
    norm_num at h
  have habs2 : ((100:ℚ) ≠ 0 ∧ 1 < |(100:ℚ)|) := by
    refine ⟨by norm_num, ?_⟩
    rw [abs_of_nonneg (by norm_num : (0:ℚ) ≤ 100)]
    norm_num
  refine ⟨?_, ?_, rfl, rfl, rfl, rfl, ?_, ?_, ?_⟩
  · rw [abs_of_nonneg (by norm_num : (0:ℚ) ≤ 60)]; norm_num
  · rw [abs_of_nonneg (by norm_num : (0:ℚ) ≤ 1/2)]; norm_num
  · show some (sentinelMerge (some (1/2)) (some (.num 60))) = some (.num 60)
    simp only [sentinelMerge]
    rw [if_neg habs1]
    rfl
  · show some (sentinelMerge (some 100) (some (.num 24))) = some (.num 100)
    simp only [sentinelMerge]
    rw [if_pos habs2]
  · show some (sentinelMerge (some 100) (some (.num 24))) ≠ some (.num 24)
    simp only [sentinelMerge]
    rw [if_pos habs2]
    intro h
    injection h with h
    injection h with h
    norm_num at h

/-- C1 as amended: when a drone-list update carries a sentinel latitude
(`|lat| < 1°`) for a tid whose record holds a latitude, the merge keeps the
stored latitude; the stored longitude is kept exactly when the update's
longitude is likewise absent, zero, or of absolute value at most 1° — in
particular a 0/0 heartbeat preserves the whole prior fix, but a sentinel
latitude paired with a valid longitude lets the longitude through. -/
theorem c1_sentinel_lat_preserved (cur : Record) (d : DroneMsg) (l la : ℚ)
    (hcur : cur .lat = some (.num l)) (hla : d.latitude = some la)
    (hsent : |la| < 1) :
    (mergeDroneA cur d) .lat = some (.num l) ∧
    (∀ lo : ℚ, cur .lon = some (.num lo) →
      (d.longitude = none ∨ (∃ lo2, d.longitude = some lo2 ∧ |lo2| ≤ 1)) →
      (mergeDroneA cur d) .lon = some (.num lo)) := by
  constructor
  · show some (sentinelMerge d.latitude (cur .lat)) = some (.num l)
    rw [hla, hcur]
    simp only [sentinelMerge]
    rw [if_neg]
    · rfl
    · rintro ⟨-, h⟩
      exact absurd (lt_trans hsent h) (lt_irrefl _)
  · intro lo hlon hcond
    show some (sentinelMerge d.longitude (cur .lon)) = some (.num lo)
    rcases hcond with hnone | ⟨lo2, heq, hle⟩
    · rw [hnone, hlon]
      rfl
    · rw [heq, hlon]
      simp only [sentinelMerge]
      rw [if_neg]
      · rfl
      · rintro ⟨-, h⟩
        exact absurd hle (not_le.mpr h)

/-- Witness for C1: the 0/0 controller heartbeat leaves the stored
(60, 24) fix untouched. -/
theorem c1_witness :
    (mergeDroneA preFix droneHeartbeat) .lat = some (.num 60) ∧
    (mergeDroneA preFix droneHeartbeat) .lon = some (.num 24) :=
  ⟨(c1_sentinel_lat_preserved preFix droneHeartbeat 60 0 rfl rfl (by norm_num)).1,
   (c1_sentinel_lat_preserved preFix droneHeartbeat 60 0 rfl rfl (by norm_num)).2
     24 rfl (Or.inr ⟨0, rfl, by norm_num⟩)⟩

/-- C2 counterexample: an OwnTracks update without the `alt` key, merged
for a tid whose stored record carries `alt = 100`, **clears** the field
instead of preserving it — `process_traffic` replaces the whole record
(`self.telemetry_buffer[tid] = data`). -/
theorem c2_counterexample :
    preOwn .alt = some (.num 100) ∧ ownNoAlt .alt = none ∧
    bufField bufOwn "RW" .alt = some (some (.num 100)) ∧
    bufField (storeCaseD bufOwn "RW" 0 ownNoAlt) "RW" .alt = some none ∧
    bufField (storeCaseD bufOwn "RW" 0 ownNoAlt) "RW" .alt ≠
      bufField bufOwn "RW" .alt := by
  refine ⟨rfl, rfl, by decide, by decide, by decide⟩

/-- C2 as amended: the Autel merge paths behave as the claim says — the
drone-list merge writes exactly its nine keys and preserves every other
stored field, and the OSD case overwrites only the fields present in the
update, preserving absent ones — but the OwnTracks (and Dronetag) paths
replace the record wholesale, so a field absent from such an update is
cleared rather than preserved (the post-state is the update itself plus
the injected `speed` / `type` / `link_latency` keys, independent of the
prior record). -/
theorem c2_merge_frame :
    (∀ (cur : Record) (pt : Option String) (cp h : Option ℚ),
      (pt = none → mergeCaseB cur pt cp h .pos_type = cur .pos_type) ∧
      (cp = none → mergeCaseB cur pt cp h .batt = cur .batt) ∧
      (h = none → mergeCaseB cur pt cp h .alt = cur .alt) ∧
      (∀ s, pt = some s → mergeCaseB cur pt cp h .pos_type = some (.str s)) ∧
      (∀ q, cp = some q → mergeCaseB cur pt cp h .batt = some (.num q)) ∧
      (∀ q, h = some q → mergeCaseB cur pt cp h .alt = some (.num q)) ∧
      (∀ f, f ≠ .ftype → f ≠ .pos_type → f ≠ .batt → f ≠ .alt →
        mergeCaseB cur pt cp h f = cur f)) ∧
    (∀ (cur : Record) (d : DroneMsg) (f : FKey),
      f ≠ .tid → f ≠ .ftype → f ≠ .lat → f ≠ .lon → f ≠ .alt → f ≠ .batt →
      f ≠ .speed → f ≠ .pos_type → f ≠ .acc →
      mergeDroneA cur d f = cur f) ∧
    (∀ (ts : ℚ) (u : Record) (f : FKey),
      f ≠ .speed → f ≠ .ftype → f ≠ .link_latency →
      mergeCaseD ts u f = u f) := by
  refine ⟨?_, ?_, ?_⟩
  · intro cur pt cp h
    refine ⟨?_, ?_, ?_, ?_, ?_, ?_, ?_⟩
    · intro hp; subst hp; rfl
    · intro hp; subst hp; rfl
    · intro hp; subst hp; rfl
    · intro s hp; subst hp; rfl
    · intro q hp; subst hp; rfl
    · intro q hp; subst hp; rfl
    · intro f h1 h2 h3 h4
      cases f <;> simp_all [mergeCaseB]
  · intro cur d f h1 h2 h3 h4 h5 h6 h7 h8 h9
    cases f <;> simp_all [mergeDroneA]
  · intro ts u f h1 h2 h3
    cases f <;> simp_all [mergeCaseD]

/-- Witness for C2: the OSD case with no carried fields preserves
`pos_type`, and case D leaves `lat` exactly as it stands in the update. -/
theorem c2_witness :
    mergeCaseB preFix none none none .pos_type = preFix .pos_type ∧
    mergeCaseD 0 ownNoAlt .lat = ownNoAlt .lat :=
  ⟨(c2_merge_frame.1 preFix none none none).1 rfl,
   c2_merge_frame.2.2 0 ownNoAlt .lat (by decide) (by decide) (by decide)⟩

/-- Helper: a map whose function fixes every element of the list is the
identity on that list. -/
theorem list_map_fix {α : Type} (f : α → α) (l : List α)
    (h : ∀ x ∈ l, f x = x) : l.map f = l := by
  induction l with
  | nil => rfl
  | cons a t ih =>
    simp only [List.map_cons]
    rw [h a (by simp), ih (fun x hx => h x (by simp [hx]))]

/-- C3 counterexample: with two AIR records in the legacy buffer (the
Dronetag one fresher), a visual event overwrites the `ai_sightings` of
**both** — not of exactly the one with maximal `last_seen_ts`; the
UAV-0001 record changes although TAG-9999 is the most recent. -/
theorem c3_counterexample :
    attach_ai_update legacyTwoAir humanSightings =
      [("UAV-0001", [{ ftype := "AIR", ai_sightings := humanSightings, ts := 10 }]),
       ("TAG-9999", [{ ftype := "AIR", ai_sightings := humanSightings, ts := 20 }])] ∧
    ([{ ftype := "AIR", ai_sightings := humanSightings, ts := 10 }] : List LRec) ≠
      [{ ftype := "AIR", ai_sightings := [], ts := 10 }] := by
  constructor <;> decide

/-- C3 as amended: a visual event attaches to **every** buffer entry whose
latest history record has type AIR, rewriting that record's
`ai_sightings` in place; entries whose latest record is not AIR are left
unchanged, and when no entry qualifies the whole buffer is unchanged (the
event is dropped). -/
theorem c3_visual_attach_all_air (buf : List (String × List LRec))
    (s : List (String × ℕ)) :
    ((∀ p ∈ buf, ∀ r, p.2.getLast? = some r → r.ftype ≠ "AIR") →
      attach_ai_update buf s = buf) ∧
    (∀ tid h r, (tid, h) ∈ buf → h.getLast? = some r → r.ftype = "AIR" →
      (tid, h.dropLast ++ [{ r with ai_sightings := s }]) ∈ attach_ai_update buf s) ∧
    (∀ tid h, (tid, h) ∈ buf → (∀ r, h.getLast? = some r → r.ftype ≠ "AIR") →
      (tid, h) ∈ attach_ai_update buf s) := by
  have hset : ∀ (h : List LRec), (∀ r, h.getLast? = some r → r.ftype ≠ "AIR") →
      setLastSight h s = h := by
    intro h hno
    unfold setLastSight
    cases hl : h.getLast? with
    | none => rfl
    | some r =>
      show (if r.ftype = "AIR" then h.dropLast ++ [{ r with ai_sightings := s }] else h) = h
      rw [if_neg (hno r hl)]
  refine ⟨?_, ?_, ?_⟩
  · intro hno
    apply list_map_fix
    intro p hp
    rw [hset p.2 (hno p hp)]
  · intro tid h r hmem hlast hair
    refine List.mem_map.mpr ⟨(tid, h), hmem, ?_⟩
    simp only [setLastSight, hlast, if_pos hair]
  · intro tid h hmem hno
    refine List.mem_map.mpr ⟨(tid, h), hmem, ?_⟩
    rw [hset h hno]

/-- Witness for C3: a buffer holding only a ground asset is unchanged by a
visual event. -/
theorem c3_witness :
    attach_ai_update legacyGroundOnly humanSightings = legacyGroundOnly :=
  (c3_visual_attach_all_air legacyGroundOnly humanSightings).1 (by
    intro p hp r hr
    have hp' : p = ("RW", [{ ftype := "GROUND", ai_sightings := [], ts := 5 }]) := by
      simpa [legacyGroundOnly] using hp
    subst hp'
    have : some ({ ftype := "GROUND", ai_sightings := [], ts := 5 } : LRec) = some r := hr
    cases this
    decide)

/-- C9: the replay loop's timing is exactly the claim's formula.  With the
anchor set (`log_t0 = first emitted record's ts`, `wall_t0` = wall clock at
that emission), every non-skipped record is published after sleeping
`max(0, (log_elapsed − wall_elapsed) / s)` where
`log_elapsed = ts − log_t0` and `wall_elapsed = (now − wall_t0) · s`; the
first emitted record sets the anchor to its own `ts` and the current wall
clock and sleeps 0; and the published packets are exactly the well-formed,
non-skipped records in file order. -/
theorem c9_replay_timing :
    (∀ (speed : ℚ) (skip : Option ℚ) (now t0 w0 : ℚ) (r : LogRecord),
      skipCheck skip r.ts = false →
      replayStep speed skip now (some (t0, w0)) r =
        (some (t0, w0),
         some { sleep_s := max 0 ((r.ts - t0 - (now - w0) * speed) / speed),
                topic := r.topic, data := r.data })) ∧
    (∀ (speed : ℚ) (skip : Option ℚ) (now : ℚ) (r : LogRecord),
      skipCheck skip r.ts = false →
      replayStep speed skip now none r =
        (some (r.ts, now),
         some { sleep_s := 0, topic := r.topic, data := r.data })) ∧
    (∀ (speed : ℚ) (skip : Option ℚ) (anchor : Option (ℚ × ℚ))
       (inputs : List (ℚ × Option LogRecord)),
      (replayRun speed skip anchor inputs).map (fun e => (e.topic, e.data)) =
        inputs.filterMap (fun p =>
          match p.2 with
          | some r => if skipCheck skip r.ts then none else some (r.topic, r.data)
          | none => none)) := by
  have hmax : ∀ w : ℚ, (if w > 0 then w else 0) = max 0 w := by
    intro w
    rcases le_or_lt w 0 with hw | hw
    · rw [if_neg (not_lt.mpr hw), max_eq_left hw]
    · rw [if_pos hw, max_eq_right (le_of_lt hw)]
  refine ⟨?_, ?_, ?_⟩
  · intro speed skip now t0 w0 r h
    simp only [replayStep, h, Bool.false_eq_true, if_false, Option.getD_some, hmax]
  · intro speed skip now r h
    simp only [replayStep, h, Bool.false_eq_true, if_false, Option.getD_none]
    have hz : (r.ts - r.ts - (now - now) * speed) / speed = 0 := by
      field_simp
    rw [hz]
    simp [hmax]
  · intro speed skip anchor inputs
    induction inputs generalizing anchor with
    | nil => rfl
    | cons p rest ih =>
      rcases p with ⟨now, r?⟩
      cases r? with
      | none =>
        simp only [replayRun, List.filterMap_cons]
        exact ih anchor
      | some r =>
        by_cases hs : skipCheck skip r.ts
        · simp only [replayRun, replayStep, hs, if_true, List.filterMap_cons]
          exact ih anchor
        · simp only [replayRun, replayStep, hs, Bool.false_eq_true, if_false,
            List.filterMap_cons, List.map_cons]
          rw [ih]

/-- Witness for C9 at a concrete input: speed 2, anchor (0, 100), a record
at log-time 10 processed at wall-time 101 sleeps
`max 0 ((10 − 0 − (101 − 100)·2) / 2) = 4`. -/
theorem c9_witness :
    replayStep 2 none 101 (some (0, 100)) { ts := 10, topic := "t", data := "d" } =
      (some (0, 100),
       some { sleep_s := max 0 (((10:ℚ) - 0 - (101 - 100) * 2) / 2),
              topic := "t", data := "d" }) :=
  c9_replay_timing.1 2 none 101 0 100 { ts := 10, topic := "t", data := "d" } rfl
